import Mathlib

/-!
# Verification of the GA Eats geospatial core

Shallow embedding of `app/utils/geospatial.server.ts`: the haversine
distance engine, the distance formatting helper, and the PostGIS-backed
proximity query service (`findRestaurantsNearby`, `findAirportsNearby`,
`findNearestAirport`, `findRestaurantsNearAirport`).

Modelling conventions:

* JavaScript numbers are IEEE-754 doubles.  Every finite double is a
  rational number, so data-layer values (coordinates, ratings, radii,
  row distances) are modelled as `ℚ`, keeping all comparisons exact and
  executable.  The transcendental haversine computation is modelled over
  `ℝ` (the idealised, rounding-error-free reading of the double-precision
  formula, the standard shallow embedding of floating-point arithmetic).

* The SQL queries run inside PostgreSQL/PostGIS.  Their relational
  semantics over a database snapshot is embedded directly: `WHERE`
  becomes `List.filter`, `ORDER BY distance ASC` becomes a stable sort by
  the distance column, `LIMIT n` becomes `List.take` (PostgreSQL rejects a
  negative `LIMIT`, which surfaces as a data-access failure).  The PostGIS
  primitive `ST_DistanceSphere` is an external function of the store, so it
  is a parameter `distSphere` of every query operation; no theorem below
  depends on which spherical distance the store implements.

* Promise rejection (a thrown `Error`) is modelled with `Except GeoError`.
-/

namespace GaEats

/-- `GeoPoint` from `geospatial.server.ts`: a geographic point
(latitude, longitude).  Coordinates are doubles, modelled as `ℚ`. -/
structure GeoPoint where
  latitude : ℚ
  longitude : ℚ
deriving DecidableEq

/-! ## Distance engine (`calculateHaversineDistance`) -/

/-- JavaScript `Math.atan2(y, x)`: the angle of the point `(x, y)`,
in `(-π, π]`, with `atan2 0 0 = 0` (sign-of-zero refinements of the
IEEE spec are irrelevant here: the embedding only ever applies it to
square roots, which are nonnegative). -/
noncomputable def atan2 (y x : ℝ) : ℝ :=
  if 0 < x then Real.arctan (y / x)
  else if x < 0 then
    (if 0 ≤ y then Real.arctan (y / x) + Real.pi else Real.arctan (y / x) - Real.pi)
  else
    if 0 < y then Real.pi / 2
    else if y < 0 then -(Real.pi / 2)
    else 0

/-- `toRadians` from `geospatial.server.ts`: `(degrees * Math.PI) / 180`. -/
noncomputable def toRadians (degrees : ℚ) : ℝ :=
  ((degrees : ℝ) * Real.pi) / 180

/-- `calculateHaversineDistance` from `geospatial.server.ts`:
haversine great-circle distance in kilometres between two points,
with Earth radius 6371 km. -/
noncomputable def calculateHaversineDistance (point1 point2 : GeoPoint) : ℝ :=
  let R : ℝ := 6371
  let dLat := toRadians (point2.latitude - point1.latitude)
  let dLon := toRadians (point2.longitude - point1.longitude)
  let a :=
    Real.sin (dLat / 2) * Real.sin (dLat / 2) +
      Real.cos (toRadians point1.latitude) *
        Real.cos (toRadians point2.latitude) *
        Real.sin (dLon / 2) *
        Real.sin (dLon / 2)
  let c := 2 * atan2 (Real.sqrt a) (Real.sqrt (1 - a))
  R * c

/-- The haversine algorithm exactly as the specification states it:
`R = 6371` km, `dLat = radians(lat2 - lat1)`, `dLon = radians(lon2 - lon1)`,
`a = sin²(dLat/2) + cos(lat1)·cos(lat2)·sin²(dLon/2)` (latitudes in radians),
`c = 2·atan2(√a, √(1-a))`, result `R·c`.  Stated independently of
`calculateHaversineDistance` so that the two can be compared. -/
noncomputable def specHaversineDistance (p1 p2 : GeoPoint) : ℝ :=
  let R : ℝ := 6371
  let dLat := toRadians (p2.latitude - p1.latitude)
  let dLon := toRadians (p2.longitude - p1.longitude)
  let lat1 := toRadians p1.latitude
  let lat2 := toRadians p2.latitude
  let a := Real.sin (dLat / 2) ^ 2 + Real.cos lat1 * Real.cos lat2 * Real.sin (dLon / 2) ^ 2
  let c := 2 * atan2 (Real.sqrt a) (Real.sqrt (1 - a))
  R * c

/-! ## Distance formatting (`formatDistance`) -/

/-- JavaScript `Math.round`: nearest integer, rounding half toward `+∞`. -/
def jsRound (x : ℚ) : ℤ :=
  ⌊x + 1 / 2⌋

/-- Decimal rendering of an integer number of tenths, one fractional
digit, as `Number.prototype.toFixed(1)` prints it (e.g. `13 ↦ "1.3"`). -/
def renderTenths (n : ℤ) : String :=
  (if n < 0 then "-" else "") ++ toString (n.natAbs / 10) ++ "." ++ toString (n.natAbs % 10)

/-- JavaScript `Number.prototype.toFixed(1)`: ECMA-262 picks the integer
`n` with `n / 10` closest to the value, the larger `n` on ties, and prints
`n` tenths with one fractional digit. -/
def toFixed1 (x : ℚ) : String :=
  renderTenths ⌊x * 10 + 1 / 2⌋

/-- `formatDistance` from `geospatial.server.ts`: metres below 1000 are
rendered as `"{Math.round(d)} m"`, otherwise as `"{(d/1000).toFixed(1)} km"`. -/
def formatDistance (distanceMeters : ℚ) : String :=
  if distanceMeters < 1000 then
    toString (jsRound distanceMeters) ++ " m"
  else
    toFixed1 (distanceMeters / 1000) ++ " km"

/-- Rounding half away from zero, the mode the specification prescribes
for `formatDistance`. -/
def roundHalfAwayFromZero (x : ℚ) : ℤ :=
  if 0 ≤ x then ⌊x + 1 / 2⌋ else ⌈x - 1 / 2⌉

/-! ## Proximity query service

The four query operations issue raw SQL against the PostGIS store.  The
embedding gives their relational semantics over a snapshot `Database` of
the two tables, parameterised by the store's spherical distance function
`distSphere` (PostGIS `ST_DistanceSphere`, metres). -/

/-- Error taxonomy of the core, as a rejected promise's payload:
`notFound` carries the airport code of the thrown
`Error("Airport not found: ...")`; `dataAccessFailure` is an error raised
by the store itself (e.g. PostgreSQL rejecting a negative `LIMIT`);
`invalidArgument` is the validation failure the specification describes. -/
inductive GeoError where
  | invalidArgument
  | notFound (code : String)
  | dataAccessFailure
deriving DecidableEq

/-- A row of the `restaurants` table (the columns the queries filter,
order, or resolve by; the remaining pass-through columns — description,
address, timestamps, … — play no role in any query's behaviour). -/
structure Restaurant where
  id : ℤ
  name : String
  cuisine : Option String
  rating : ℚ
  location : GeoPoint
deriving DecidableEq

/-- A row of the `airports` table. -/
structure Airport where
  id : ℤ
  code : String
  name : String
  location : GeoPoint
deriving DecidableEq

/-- `RestaurantWithDistance` from `geospatial.server.ts`: a restaurant row
annotated with its computed `distance` column in metres. -/
structure RestaurantWithDistance where
  restaurant : Restaurant
  distance : ℚ
deriving DecidableEq

/-- `AirportWithDistance` from `geospatial.server.ts`: an airport row
annotated with its computed `distance` column in metres. -/
structure AirportWithDistance where
  airport : Airport
  distance : ℚ
deriving DecidableEq

/-- A snapshot of the store the queries read (rows in table order). -/
structure Database where
  restaurants : List Restaurant
  airports : List Airport

/-- SQL `UPPER` on the ASCII airport codes the application stores. -/
def sqlUpper (s : String) : String :=
  String.mk (s.data.map Char.toUpper)

/-- `findRestaurantsNearby` from `geospatial.server.ts`:

`SELECT …, ST_DistanceSphere(location, point) AS distance FROM restaurants
WHERE rating >= minRating AND ST_DistanceSphere(location, point) <= radiusMeters
ORDER BY distance ASC LIMIT limit`

with `radiusMeters = radiusKm * 1000`.  The TypeScript function performs
no validation of its own; its only failure mode is an error from the
store (PostgreSQL rejects `LIMIT` with a negative argument). -/
def findRestaurantsNearby (distSphere : GeoPoint → GeoPoint → ℚ) (db : Database)
    (point : GeoPoint) (radiusKm minRating : ℚ) (limit : ℤ) :
    Except GeoError (List RestaurantWithDistance) :=
  let radiusMeters := radiusKm * 1000
  if limit < 0 then
    Except.error GeoError.dataAccessFailure
  else
    let matching := db.restaurants.filter fun r =>
      decide (minRating ≤ r.rating) && decide (distSphere r.location point ≤ radiusMeters)
    let annotated := matching.map fun r =>
      RestaurantWithDistance.mk r (distSphere r.location point)
    Except.ok ((annotated.mergeSort fun a b => decide (a.distance ≤ b.distance)).take limit.toNat)

/-- `findAirportsNearby` from `geospatial.server.ts`: the same query shape
over the `airports` table, with no rating filter. -/
def findAirportsNearby (distSphere : GeoPoint → GeoPoint → ℚ) (db : Database)
    (point : GeoPoint) (radiusKm : ℚ) (limit : ℤ) :
    Except GeoError (List AirportWithDistance) :=
  let radiusMeters := radiusKm * 1000
  if limit < 0 then
    Except.error GeoError.dataAccessFailure
  else
    let matching := db.airports.filter fun a =>
      decide (distSphere a.location point ≤ radiusMeters)
    let annotated := matching.map fun a =>
      AirportWithDistance.mk a (distSphere a.location point)
    Except.ok ((annotated.mergeSort fun a b => decide (a.distance ≤ b.distance)).take limit.toNat)

/-- `findNearestAirport` from `geospatial.server.ts`:
`findAirportsNearby(prisma, point, 500.0, 1)` followed by
`results[0] || null` (an object is never falsy, so this is the head of the
result list, or `null` when it is empty). -/
def findNearestAirport (distSphere : GeoPoint → GeoPoint → ℚ) (db : Database)
    (point : GeoPoint) : Except GeoError (Option AirportWithDistance) :=
  (findAirportsNearby distSphere db point 500 1).map fun results => results.head?

/-- The specification's description of `findNearestAirport`, stated
independently for comparison: the specialisation
`findNearby(Airport, point, radiusKm=500, filters=none, limit=1)`,
returning the single nearest match, or an explicit "none found" value
when the query yields nothing. -/
def specFindNearestAirport (distSphere : GeoPoint → GeoPoint → ℚ) (db : Database)
    (point : GeoPoint) : Except GeoError (Option AirportWithDistance) :=
  match findAirportsNearby distSphere db point 500 1 with
  | Except.ok results => Except.ok results.head?
  | Except.error e => Except.error e

/-- `findRestaurantsNearAirport` from `geospatial.server.ts`: resolve the
code by `SELECT … FROM airports WHERE UPPER(code) = UPPER(airportCode)
LIMIT 1`; throw `Error("Airport not found: …")` when no row matches;
otherwise query restaurants around the resolved location.  The call to
`findRestaurantsNearby` omits the limit argument, so the TypeScript
default `limit = 20` applies. -/
def findRestaurantsNearAirport (distSphere : GeoPoint → GeoPoint → ℚ) (db : Database)
    (airportCode : String) (radiusKm minRating : ℚ) :
    Except GeoError (List RestaurantWithDistance) :=
  match (db.airports.filter fun a => sqlUpper a.code == sqlUpper airportCode).head? with
  | none => Except.error (GeoError.notFound airportCode)
  | some airport => findRestaurantsNearby distSphere db airport.location radiusKm minRating 20

/-! ## Sample data used by witnesses and counterexamples -/

/-- A distance oracle for concrete evaluations: every row is at the
centre (`ST_DistanceSphere` returning 0 everywhere). -/
def zeroDist : GeoPoint → GeoPoint → ℚ := fun _ _ => 0

/-- A concrete restaurant row (rating 4.5). -/
def sampleRestaurant : Restaurant :=
  ⟨1, "The Flying Burger", some "American", 9 / 2, ⟨37, -122⟩⟩

/-- A concrete airport row. -/
def sampleAirport : Airport :=
  ⟨1, "SFO", "San Francisco International Airport", ⟨37, -122⟩⟩

/-- A concrete one-row-per-table database snapshot. -/
def sampleDb : Database :=
  ⟨[sampleRestaurant], [sampleAirport]⟩

/-! ## Helper lemmas -/

/-- `Math.atan2` of two nonnegative arguments lands in the first
quadrant: the angle is nonnegative. -/
lemma atan2_nonneg (y x : ℝ) (hy : 0 ≤ y) (hx : 0 ≤ x) : 0 ≤ atan2 y x := by
  unfold atan2
  rcases lt_or_eq_of_le hx with hx1 | hx1
  · rw [if_pos hx1]
    have hq : 0 ≤ y / x := div_nonneg hy hx
    have h := Real.arctan_strictMono.monotone hq
    simpa using h
  · rw [if_neg (by rw [← hx1]; exact lt_irrefl 0),
      if_neg (by rw [← hx1]; exact lt_irrefl 0)]
    rcases lt_or_eq_of_le hy with hy1 | hy1
    · rw [if_pos hy1]
      have h := Real.pi_pos
      linarith
    · rw [if_neg (by rw [← hy1]; exact lt_irrefl 0),
        if_neg (by rw [← hy1]; exact lt_irrefl 0)]

/-- Congruence for the haversine core through the two square roots. -/
lemma hav_core_congr {a b : ℝ} (h : a = b) :
    6371 * (2 * atan2 (Real.sqrt a) (Real.sqrt (1 - a))) =
      6371 * (2 * atan2 (Real.sqrt b) (Real.sqrt (1 - b))) := by
  rw [h]

/-- `toRadians` flips sign when its argument does. -/
lemma toRadians_sub_comm (a b : ℚ) : toRadians (a - b) = -toRadians (b - a) := by
  simp only [toRadians]
  push_cast
  ring

/-! ## Distance engine claims -/

/-- C3: for every pair of GeoPoints, `calculateHaversineDistance` computes
exactly the haversine algorithm the specification prescribes: `R = 6371` km,
`dLat = radians(lat2-lat1)`, `dLon = radians(lon2-lon1)`,
`a = sin²(dLat/2) + cos(lat1)·cos(lat2)·sin²(dLon/2)` with latitudes in
radians, `c = 2·atan2(√a, √(1-a))`, and result `R·c` kilometres. -/
theorem calculateHaversineDistance_matches_spec (p1 p2 : GeoPoint) :
    calculateHaversineDistance p1 p2 = specHaversineDistance p1 p2 := by
  simp only [calculateHaversineDistance, specHaversineDistance]
  apply hav_core_congr
  ring

/-- C7: for every GeoPoint with latitude in [-90, 90] and longitude in
[-180, 180], the haversine distance from the point to itself is exactly 0. -/
theorem calculateHaversineDistance_self (P : GeoPoint)
    (_h1 : -90 ≤ P.latitude) (_h2 : P.latitude ≤ 90)
    (_h3 : -180 ≤ P.longitude) (_h4 : P.longitude ≤ 180) :
    calculateHaversineDistance P P = 0 := by
  simp [calculateHaversineDistance, toRadians, atan2, Real.arctan_zero]

/-- C7 witness: the self-distance at San Francisco is 0. -/
theorem calculateHaversineDistance_self_witness :
    calculateHaversineDistance ⟨37, -122⟩ ⟨37, -122⟩ = 0 :=
  calculateHaversineDistance_self ⟨37, -122⟩ (by norm_num) (by norm_num)
    (by norm_num) (by norm_num)

/-- C8: for every pair of GeoPoints in coordinate range, the haversine
distance is symmetric in its two arguments. -/
theorem calculateHaversineDistance_symm (P1 P2 : GeoPoint)
    (_h1 : -90 ≤ P1.latitude) (_h2 : P1.latitude ≤ 90)
    (_h3 : -180 ≤ P1.longitude) (_h4 : P1.longitude ≤ 180)
    (_h5 : -90 ≤ P2.latitude) (_h6 : P2.latitude ≤ 90)
    (_h7 : -180 ≤ P2.longitude) (_h8 : P2.longitude ≤ 180) :
    calculateHaversineDistance P1 P2 = calculateHaversineDistance P2 P1 := by
  simp only [calculateHaversineDistance]
  apply hav_core_congr
  rw [toRadians_sub_comm P1.latitude P2.latitude,
    toRadians_sub_comm P1.longitude P2.longitude]
  rw [neg_div, neg_div, Real.sin_neg, Real.sin_neg]
  ring

/-- C8 witness: symmetry at the San Francisco / Los Angeles pair. -/
theorem calculateHaversineDistance_symm_witness :
    calculateHaversineDistance ⟨37, -122⟩ ⟨34, -118⟩ =
      calculateHaversineDistance ⟨34, -118⟩ ⟨37, -122⟩ :=
  calculateHaversineDistance_symm ⟨37, -122⟩ ⟨34, -118⟩
    (by norm_num) (by norm_num) (by norm_num) (by norm_num)
    (by norm_num) (by norm_num) (by norm_num) (by norm_num)

/-- C9: for every pair of GeoPoints in coordinate range, the haversine
distance is a nonnegative real number (in the real-valued reading there is
no NaN; nonnegativity is what remains to show). -/
theorem calculateHaversineDistance_nonneg (P1 P2 : GeoPoint)
    (_h1 : -90 ≤ P1.latitude) (_h2 : P1.latitude ≤ 90)
    (_h3 : -180 ≤ P1.longitude) (_h4 : P1.longitude ≤ 180)
    (_h5 : -90 ≤ P2.latitude) (_h6 : P2.latitude ≤ 90)
    (_h7 : -180 ≤ P2.longitude) (_h8 : P2.longitude ≤ 180) :
    0 ≤ calculateHaversineDistance P1 P2 := by
  simp only [calculateHaversineDistance]
  have h := atan2_nonneg (Real.sqrt (Real.sin (toRadians (P2.latitude - P1.latitude) / 2) *
      Real.sin (toRadians (P2.latitude - P1.latitude) / 2) +
    Real.cos (toRadians P1.latitude) * Real.cos (toRadians P2.latitude) *
      Real.sin (toRadians (P2.longitude - P1.longitude) / 2) *
      Real.sin (toRadians (P2.longitude - P1.longitude) / 2)))
    (Real.sqrt (1 - (Real.sin (toRadians (P2.latitude - P1.latitude) / 2) *
      Real.sin (toRadians (P2.latitude - P1.latitude) / 2) +
    Real.cos (toRadians P1.latitude) * Real.cos (toRadians P2.latitude) *
      Real.sin (toRadians (P2.longitude - P1.longitude) / 2) *
      Real.sin (toRadians (P2.longitude - P1.longitude) / 2))))
    (Real.sqrt_nonneg _) (Real.sqrt_nonneg _)
  linarith

/-- C9 witness: nonnegativity at the San Francisco / Los Angeles pair. -/
theorem calculateHaversineDistance_nonneg_witness :
    0 ≤ calculateHaversineDistance ⟨37, -122⟩ ⟨34, -118⟩ :=
  calculateHaversineDistance_nonneg ⟨37, -122⟩ ⟨34, -118⟩
    (by norm_num) (by norm_num) (by norm_num) (by norm_num)
    (by norm_num) (by norm_num) (by norm_num) (by norm_num)

/-! ## Formatting claim -/

/-- C5: for nonnegative metre values, `formatDistance` renders
`"{round(d)} m"` below 1000 and `"{d/1000 to one decimal} km"` from 1000
on, rounding half away from zero (for nonnegative inputs JavaScript's
half-up rounding coincides with half-away-from-zero); in particular
`formatDistance 0 = "0 m"`, `formatDistance 499.5 = "500 m"`,
`formatDistance 1000 = "1.0 km"` and `formatDistance 1250 = "1.3 km"`. -/
theorem formatDistance_contract :
    (∀ d : ℚ, 0 ≤ d → d < 1000 →
        formatDistance d = toString (roundHalfAwayFromZero d) ++ " m") ∧
    (∀ d : ℚ, 1000 ≤ d →
        formatDistance d = renderTenths (roundHalfAwayFromZero (d / 100)) ++ " km") ∧
    formatDistance 0 = "0 m" ∧
    formatDistance (999 / 2) = "500 m" ∧
    formatDistance 1000 = "1.0 km" ∧
    formatDistance 1250 = "1.3 km" := by
  refine ⟨?_, ?_, ?_, ?_, ?_, ?_⟩
  · intro d hd0 hd
    rw [formatDistance, if_pos hd, jsRound, roundHalfAwayFromZero, if_pos hd0]
  · intro d hd
    have hd0 : (0 : ℚ) ≤ d / 100 := by
      have : (0 : ℚ) ≤ d := by linarith
      positivity
    rw [formatDistance, if_neg (not_lt.mpr hd), toFixed1, roundHalfAwayFromZero, if_pos hd0]
    have h100 : d / 1000 * 10 = d / 100 := by ring
    rw [h100]
  · norm_num [formatDistance, jsRound]
    decide
  · norm_num [formatDistance, jsRound]
    decide
  · norm_num [formatDistance, toFixed1, renderTenths]
    decide
  · norm_num [formatDistance, toFixed1, renderTenths]
    decide

/-- C5 witness: the quantified clauses applied at 700 m and 2500 m. -/
theorem formatDistance_contract_witness :
    formatDistance 700 = toString (roundHalfAwayFromZero 700) ++ " m" ∧
    formatDistance 2500 = renderTenths (roundHalfAwayFromZero (2500 / 100)) ++ " km" :=
  ⟨formatDistance_contract.1 700 (by norm_num) (by norm_num),
    formatDistance_contract.2.1 2500 (by norm_num)⟩

/-! ## Query pipeline lemmas

Both `findNearby` queries produce `take limit (sort (annotate (filter rows)))`;
the next lemmas capture the three contract facts of that pipeline. -/

/-- Every element of the capped, sorted, annotated selection is the
annotation of a row that passed the `WHERE` clause. -/
lemma pipeline_mem {α β : Type} (rows : List α) (p : α → Bool) (f : α → β)
    (le : β → β → Bool) (n : ℕ) (x : β)
    (hx : x ∈ (((rows.filter p).map f).mergeSort le).take n) :
    ∃ r, r ∈ rows ∧ p r = true ∧ x = f r := by
  have h1 : x ∈ (rows.filter p).map f :=
    (List.mergeSort_perm _ le).subset ((List.take_sublist n _).subset hx)
  rcases List.mem_map.mp h1 with ⟨r, hr, rfl⟩
  have h2 := List.mem_filter.mp hr
  exact ⟨r, h2.1, h2.2, rfl⟩

/-- A `mergeSort` by a rational key is sorted by that key. -/
lemma sorted_mergeSort_key {β : Type} (key : β → ℚ) (l : List β) :
    List.Sorted (fun a b => key a ≤ key b)
      (l.mergeSort fun a b => decide (key a ≤ key b)) := by
  have hs := @List.sorted_mergeSort _ (fun a b => decide (key a ≤ key b))
    (fun a b c hab hbc => by
      simp only [decide_eq_true_iff] at hab hbc ⊢
      exact le_trans hab hbc)
    (fun a b => by
      simp only [Bool.or_eq_true, decide_eq_true_iff]
      exact le_total _ _)
    l
  refine hs.imp ?_
  intro a b hab
  simpa using hab

/-- A `mergeSort` by a rational key, then `take`, is sorted by that key. -/
lemma sorted_take_mergeSort {β : Type} (key : β → ℚ) (n : ℕ) (l : List β) :
    List.Sorted (fun a b => key a ≤ key b)
      ((l.mergeSort fun a b => decide (key a ≤ key b)).take n) :=
  List.Pairwise.sublist (List.take_sublist n _) (sorted_mergeSort_key key l)

/-- `take limit.toNat` caps the length at a nonnegative integer limit. -/
lemma take_length_le {β : Type} (l : List β) (limit : ℤ) (h : 0 ≤ limit) :
    (((l.take limit.toNat).length : ℤ)) ≤ limit := by
  have h2 : (l.take limit.toNat).length ≤ limit.toNat := by
    rw [List.length_take]
    exact min_le_left _ _
  calc ((l.take limit.toNat).length : ℤ) ≤ (limit.toNat : ℤ) := by exact_mod_cast h2
    _ = limit := Int.toNat_of_nonneg h

/-- `mergeSort` returns the empty list exactly on the empty list. -/
lemma mergeSort_eq_nil_iff {β : Type} (le : β → β → Bool) (l : List β) :
    l.mergeSort le = [] ↔ l = [] := by
  constructor
  · intro h
    have hp := List.mergeSort_perm l le
    rw [h] at hp
    exact hp.symm.eq_nil
  · intro h
    subst h
    simp [List.mergeSort]

/-! ## Proximity query claims -/

/-- C1 counterexample: called with `radiusKm = -1 ≤ 0` (and a positive
limit), both proximity queries succeed with an empty result list instead
of failing with `InvalidArgument`. -/
theorem findNearby_nonpositive_radius_counterexample :
    findRestaurantsNearby zeroDist sampleDb ⟨0, 0⟩ (-1) 4 20 = Except.ok [] ∧
    findAirportsNearby zeroDist sampleDb ⟨0, 0⟩ (-1) 20 = Except.ok [] := by
  constructor
  · simp [findRestaurantsNearby, sampleDb, sampleRestaurant, zeroDist]
  · simp [findAirportsNearby, sampleDb, sampleAirport, zeroDist]

/-- C1 amended: `findRestaurantsNearby` and `findAirportsNearby` perform
no argument validation at all.  They never produce an `InvalidArgument`
error, and every call with a nonnegative limit — in particular every call
with `radiusKm ≤ 0`, and every call with `limit = 0` — succeeds with a
(possibly empty) result list.  (A negative limit fails inside the store,
PostgreSQL rejecting the `LIMIT` clause, which is a data-access failure,
still not `InvalidArgument`.) -/
theorem findNearby_no_invalidArgument :
    ∀ (distSphere : GeoPoint → GeoPoint → ℚ) (db : Database) (point : GeoPoint)
      (radiusKm minRating : ℚ) (limit : ℤ),
      findRestaurantsNearby distSphere db point radiusKm minRating limit ≠
        Except.error GeoError.invalidArgument ∧
      findAirportsNearby distSphere db point radiusKm limit ≠
        Except.error GeoError.invalidArgument ∧
      (0 ≤ limit →
        (∃ l, findRestaurantsNearby distSphere db point radiusKm minRating limit =
          Except.ok l) ∧
        (∃ l, findAirportsNearby distSphere db point radiusKm limit = Except.ok l)) := by
  intro distSphere db point radiusKm minRating limit
  refine ⟨?_, ?_, ?_⟩
  · simp only [findRestaurantsNearby]
    split_ifs <;> simp
  · simp only [findAirportsNearby]
    split_ifs <;> simp
  · intro hlim
    constructor
    · simp only [findRestaurantsNearby]
      rw [if_neg (not_lt.mpr hlim)]
      exact ⟨_, rfl⟩
    · simp only [findAirportsNearby]
      rw [if_neg (not_lt.mpr hlim)]
      exact ⟨_, rfl⟩

/-- C1 amended witness: the success clause at `radiusKm = -1`, `limit = 20`. -/
theorem findNearby_no_invalidArgument_witness :
    (∃ l, findRestaurantsNearby zeroDist sampleDb ⟨0, 0⟩ (-1) 4 20 = Except.ok l) ∧
    (∃ l, findAirportsNearby zeroDist sampleDb ⟨0, 0⟩ (-1) 20 = Except.ok l) :=
  (findNearby_no_invalidArgument zeroDist sampleDb ⟨0, 0⟩ (-1) 4 20).2.2 (by norm_num)

/-- C2: every successful result list of the two proximity queries has all
distances within `radiusKm * 1000` metres, is non-decreasing by distance,
and has at most `limit` entries (the success value is always a list,
possibly empty — never null/absent). -/
theorem findNearby_result_contract :
    (∀ (distSphere : GeoPoint → GeoPoint → ℚ) (db : Database) (point : GeoPoint)
        (radiusKm minRating : ℚ) (limit : ℤ) (l : List RestaurantWithDistance),
        findRestaurantsNearby distSphere db point radiusKm minRating limit = Except.ok l →
        (∀ x ∈ l, x.distance ≤ radiusKm * 1000) ∧
        List.Sorted (fun a b : RestaurantWithDistance => a.distance ≤ b.distance) l ∧
        (l.length : ℤ) ≤ limit) ∧
    (∀ (distSphere : GeoPoint → GeoPoint → ℚ) (db : Database) (point : GeoPoint)
        (radiusKm : ℚ) (limit : ℤ) (l : List AirportWithDistance),
        findAirportsNearby distSphere db point radiusKm limit = Except.ok l →
        (∀ x ∈ l, x.distance ≤ radiusKm * 1000) ∧
        List.Sorted (fun a b : AirportWithDistance => a.distance ≤ b.distance) l ∧
        (l.length : ℤ) ≤ limit) := by
  constructor
  · intro distSphere db point radiusKm minRating limit l h
    simp only [findRestaurantsNearby] at h
    by_cases hlim : limit < 0
    · rw [if_pos hlim] at h
      exact absurd h (by simp)
    · rw [if_neg hlim] at h
      injection h with h
      subst h
      refine ⟨?_, ?_, ?_⟩
      · intro x hx
        rcases pipeline_mem _ _ _ _ _ x hx with ⟨r, _, hp, rfl⟩
        simp only [Bool.and_eq_true, decide_eq_true_iff] at hp
        exact hp.2
      · exact sorted_take_mergeSort (fun v : RestaurantWithDistance => v.distance) _ _
      · exact take_length_le _ _ (not_lt.mp hlim)
  · intro distSphere db point radiusKm limit l h
    simp only [findAirportsNearby] at h
    by_cases hlim : limit < 0
    · rw [if_pos hlim] at h
      exact absurd h (by simp)
    · rw [if_neg hlim] at h
      injection h with h
      subst h
      refine ⟨?_, ?_, ?_⟩
      · intro x hx
        rcases pipeline_mem _ _ _ _ _ x hx with ⟨a, _, hp, rfl⟩
        simp only [decide_eq_true_iff] at hp
        exact hp
      · exact sorted_take_mergeSort (fun v : AirportWithDistance => v.distance) _ _
      · exact take_length_le _ _ (not_lt.mp hlim)

/-- C2 witness: the restaurant clause at a concrete query whose result is
one row at distance 0. -/
theorem findNearby_result_contract_witness :
    (∀ x ∈ [RestaurantWithDistance.mk sampleRestaurant 0],
      x.distance ≤ (5 : ℚ) * 1000) ∧
    List.Sorted (fun a b : RestaurantWithDistance => a.distance ≤ b.distance)
      [RestaurantWithDistance.mk sampleRestaurant 0] ∧
    (([RestaurantWithDistance.mk sampleRestaurant 0].length : ℤ) ≤ 20) :=
  findNearby_result_contract.1 zeroDist sampleDb ⟨0, 0⟩ 5 4 20
    [RestaurantWithDistance.mk sampleRestaurant 0]
    (by
      simp [findRestaurantsNearby, sampleDb, sampleRestaurant, zeroDist, List.mergeSort]
      norm_num)

/-- C4: `findRestaurantsNearAirport` fails with the NotFound error exactly
when no airport row matches the code case-insensitively; when the code
does resolve but no restaurant satisfies the rating-and-radius selection
around the resolved location, the call succeeds with an empty list. -/
theorem findRestaurantsNearAirport_notFound_contract :
    ∀ (distSphere : GeoPoint → GeoPoint → ℚ) (db : Database) (code : String)
      (radiusKm minRating : ℚ),
      (findRestaurantsNearAirport distSphere db code radiusKm minRating =
          Except.error (GeoError.notFound code) ↔
        ¬∃ a ∈ db.airports, sqlUpper a.code = sqlUpper code) ∧
      (∀ a0 : Airport,
        (db.airports.filter fun a => sqlUpper a.code == sqlUpper code).head? = some a0 →
        (∀ r ∈ db.restaurants,
          ¬(minRating ≤ r.rating ∧ distSphere r.location a0.location ≤ radiusKm * 1000)) →
        findRestaurantsNearAirport distSphere db code radiusKm minRating = Except.ok []) := by
  intro distSphere db code radiusKm minRating
  constructor
  · cases hF : (db.airports.filter fun a => sqlUpper a.code == sqlUpper code).head? with
    | none =>
      have hnil : (db.airports.filter fun a => sqlUpper a.code == sqlUpper code) = [] :=
        List.head?_eq_none_iff.mp hF
      rw [List.filter_eq_nil_iff] at hnil
      have hno : ¬∃ a ∈ db.airports, sqlUpper a.code = sqlUpper code := by
        rintro ⟨a, ha, hc⟩
        exact hnil a ha (by simp [hc])
      refine ⟨fun _ => hno, fun _ => ?_⟩
      simp only [findRestaurantsNearAirport, hF]
    | some a0 =>
      have hres : findRestaurantsNearAirport distSphere db code radiusKm minRating =
          findRestaurantsNearby distSphere db a0.location radiusKm minRating 20 := by
        simp only [findRestaurantsNearAirport, hF]
      constructor
      · intro habs
        rw [hres] at habs
        simp only [findRestaurantsNearby] at habs
        rw [if_neg (by norm_num : ¬(20 : ℤ) < 0)] at habs
        exact absurd habs (by simp)
      · intro hno
        exfalso
        rcases List.head?_eq_some_iff.mp hF with ⟨ys, hys⟩
        have ha0 : a0 ∈ db.airports.filter fun a => sqlUpper a.code == sqlUpper code := by
          rw [hys]
          exact List.mem_cons_self _ _
        have h2 := List.mem_filter.mp ha0
        exact hno ⟨a0, h2.1, by simpa using h2.2⟩
  · intro a0 hF hnone
    simp only [findRestaurantsNearAirport, hF]
    simp only [findRestaurantsNearby]
    rw [if_neg (by norm_num : ¬(20 : ℤ) < 0)]
    have hfil : db.restaurants.filter (fun r =>
        decide (minRating ≤ r.rating) &&
          decide (distSphere r.location a0.location ≤ radiusKm * 1000)) = [] := by
      rw [List.filter_eq_nil_iff]
      intro r hr
      have hn := hnone r hr
      simp only [Bool.and_eq_true, decide_eq_true_iff]
      exact fun hand => hn hand
    rw [hfil]
    simp [List.mergeSort]

/-- C4 witness: a resolvable code (`"sfo"` vs the stored `"SFO"`) with a
radius admitting no restaurants yields an empty success, not an error. -/
theorem findRestaurantsNearAirport_notFound_contract_witness :
    findRestaurantsNearAirport zeroDist sampleDb "sfo" (-1) 4 = Except.ok [] :=
  (findRestaurantsNearAirport_notFound_contract zeroDist sampleDb "sfo" (-1) 4).2
    sampleAirport (by decide)
    (by
      intro r hr
      simp only [sampleDb, List.mem_singleton] at hr
      subst hr
      norm_num [zeroDist, sampleRestaurant])

/-- C6: `findNearestAirport` equals the specification's specialisation of
the proximity query (`findAirportsNearby` at `radiusKm = 500`, no filters,
`limit = 1`, head of the result); it always succeeds, returns the explicit
"none found" value exactly when no airport lies within 500 km, and any
airport it does return lies within 500 km and minimises the distance among
all airports within 500 km. -/
theorem findNearestAirport_contract :
    ∀ (distSphere : GeoPoint → GeoPoint → ℚ) (db : Database) (point : GeoPoint),
      findNearestAirport distSphere db point = specFindNearestAirport distSphere db point ∧
      (∃ v, findNearestAirport distSphere db point = Except.ok v) ∧
      (findNearestAirport distSphere db point = Except.ok none ↔
        ∀ a ∈ db.airports, ¬distSphere a.location point ≤ 500 * 1000) ∧
      (∀ x, findNearestAirport distSphere db point = Except.ok (some x) →
        distSphere x.airport.location point ≤ 500 * 1000 ∧
        x.distance = distSphere x.airport.location point ∧
        ∀ a ∈ db.airports, distSphere a.location point ≤ 500 * 1000 →
          x.distance ≤ distSphere a.location point) := by
  intro distSphere db point
  have hq : findAirportsNearby distSphere db point 500 1 =
      Except.ok ((((db.airports.filter fun a =>
          decide (distSphere a.location point ≤ 500 * 1000)).map fun a =>
          AirportWithDistance.mk a (distSphere a.location point)).mergeSort
          fun a b => decide (a.distance ≤ b.distance)).take (1 : ℤ).toNat) := by
    simp only [findAirportsNearby]
    rw [if_neg (by norm_num : ¬(1 : ℤ) < 0)]
  have hnear : findNearestAirport distSphere db point =
      Except.ok (((((db.airports.filter fun a =>
          decide (distSphere a.location point ≤ 500 * 1000)).map fun a =>
          AirportWithDistance.mk a (distSphere a.location point)).mergeSort
          fun a b => decide (a.distance ≤ b.distance)).take (1 : ℤ).toNat).head?) := by
    simp only [findNearestAirport, hq, Except.map]
  refine ⟨?_, ⟨_, hnear⟩, ?_, ?_⟩
  · simp only [findNearestAirport, specFindNearestAirport, hq, Except.map]
  · rw [hnear]
    simp only [Except.ok.injEq, List.head?_eq_none_iff, List.take_eq_nil_iff,
      mergeSort_eq_nil_iff, List.map_eq_nil_iff, List.filter_eq_nil_iff,
      decide_eq_true_eq]
    norm_num
  · intro x hx
    rw [hnear] at hx
    simp only [Except.ok.injEq, List.head?_take] at hx
    rw [if_neg (by norm_num : ¬(1 : ℤ).toNat = 0)] at hx
    rcases List.head?_eq_some_iff.mp hx with ⟨ys, hS⟩
    have hxA : x ∈ (db.airports.filter fun a =>
        decide (distSphere a.location point ≤ 500 * 1000)).map fun a =>
        AirportWithDistance.mk a (distSphere a.location point) :=
      (List.mergeSort_perm _ _).subset (by rw [hS]; exact List.mem_cons_self _ _)
    rcases List.mem_map.mp hxA with ⟨a, haF, rfl⟩
    have h2 := List.mem_filter.mp haF
    refine ⟨by simpa using h2.2, rfl, ?_⟩
    intro b hb hble
    have hbA : AirportWithDistance.mk b (distSphere b.location point) ∈
        (db.airports.filter fun a =>
          decide (distSphere a.location point ≤ 500 * 1000)).map fun a =>
          AirportWithDistance.mk a (distSphere a.location point) :=
      List.mem_map.mpr ⟨b, List.mem_filter.mpr ⟨hb, by simpa using hble⟩, rfl⟩
    have hbS : AirportWithDistance.mk b (distSphere b.location point) ∈
        ((db.airports.filter fun a =>
          decide (distSphere a.location point ≤ 500 * 1000)).map fun a =>
          AirportWithDistance.mk a (distSphere a.location point)).mergeSort
          fun a b => decide (a.distance ≤ b.distance) :=
      (List.mergeSort_perm _ _).mem_iff.mpr hbA
    rw [hS] at hbS
    rcases List.mem_cons.mp hbS with hEq | hMem
    · have hd := congrArg AirportWithDistance.distance hEq
      simp only at hd
      exact le_of_eq hd.symm
    · have hSorted := sorted_mergeSort_key
        (fun v : AirportWithDistance => v.distance)
        ((db.airports.filter fun a =>
          decide (distSphere a.location point ≤ 500 * 1000)).map fun a =>
          AirportWithDistance.mk a (distSphere a.location point))
      rw [hS] at hSorted
      have hrel := List.rel_of_sorted_cons hSorted _ hMem
      simpa using hrel

/-- C6 witness: the minimality clause at a database whose single airport
is at distance 0 from the query point. -/
theorem findNearestAirport_contract_witness :
    zeroDist sampleAirport.location ⟨0, 0⟩ ≤ 500 * 1000 ∧
    (AirportWithDistance.mk sampleAirport 0).distance =
      zeroDist sampleAirport.location ⟨0, 0⟩ ∧
    ∀ a ∈ sampleDb.airports, zeroDist a.location ⟨0, 0⟩ ≤ 500 * 1000 →
      (AirportWithDistance.mk sampleAirport 0).distance ≤ zeroDist a.location ⟨0, 0⟩ :=
  (findNearestAirport_contract zeroDist sampleDb ⟨0, 0⟩).2.2.2
    (AirportWithDistance.mk sampleAirport 0)
    (by simp [findNearestAirport, findAirportsNearby, sampleDb, sampleAirport, zeroDist,
      List.mergeSort, Except.map])

/-- C10: the composition query passes no caller-chosen limit: whenever the
code resolves to an airport row, its result is exactly
`findRestaurantsNearby` at the resolved location with the same radius and
rating and the fixed default limit 20, so a successful result holds at
most 20 restaurants. -/
theorem findRestaurantsNearAirport_limit_default :
    ∀ (distSphere : GeoPoint → GeoPoint → ℚ) (db : Database) (code : String)
      (radiusKm minRating : ℚ) (a0 : Airport),
      (db.airports.filter fun a => sqlUpper a.code == sqlUpper code).head? = some a0 →
      (findRestaurantsNearAirport distSphere db code radiusKm minRating =
        findRestaurantsNearby distSphere db a0.location radiusKm minRating 20) ∧
      (∀ l, findRestaurantsNearAirport distSphere db code radiusKm minRating = Except.ok l →
        (l.length : ℤ) ≤ 20) := by
  intro distSphere db code radiusKm minRating a0 hF
  have hres : findRestaurantsNearAirport distSphere db code radiusKm minRating =
      findRestaurantsNearby distSphere db a0.location radiusKm minRating 20 := by
    simp only [findRestaurantsNearAirport, hF]
  refine ⟨hres, ?_⟩
  intro l hl
  rw [hres] at hl
  simp only [findRestaurantsNearby] at hl
  rw [if_neg (by norm_num : ¬(20 : ℤ) < 0)] at hl
  injection hl with hl
  subst hl
  exact take_length_le _ _ (by norm_num)

/-- C10 witness: the default-limit equation at the sample database. -/
theorem findRestaurantsNearAirport_limit_default_witness :
    (findRestaurantsNearAirport zeroDist sampleDb "sfo" 5 4 =
      findRestaurantsNearby zeroDist sampleDb sampleAirport.location 5 4 20) ∧
    (∀ l, findRestaurantsNearAirport zeroDist sampleDb "sfo" 5 4 = Except.ok l →
      (l.length : ℤ) ≤ 20) :=
  findRestaurantsNearAirport_limit_default zeroDist sampleDb "sfo" 5 4 sampleAirport
    (by decide)

end GaEats
